import Mathlib

/-
Shallow embedding of the hardware-in-the-loop sensor simulator
(`src/main.py`).  The Python module keeps its control state in module
globals (`simulation_running`, `simulation_thread`, `stop_event`,
`active_config`, `start_time`); here that state is an explicit
`ServerState` record threaded through the control operations.  Python
floats are modelled as rationals, `random.random()` draws are explicit
parameters in `[0, 1)`, and wall-clock reads are explicit `now`
parameters.  Python object identity (configuration objects are passed by
reference, and `active_config = config` rebinds the global to a fresh
object rather than mutating the old one) is modelled with an explicit
append-only heap of configuration objects addressed by index.
-/

namespace HilSim

/-- `SensorType` enum of `main.py` (lines 22-28): the closed set of
supported sensor kinds. -/
inductive SensorType where
  | temperature
  | pressure
  | force
  | acceleration
  | position
  | light
deriving DecidableEq, BEq, Repr

/-- Default bind host (`DEFAULT_HOST`, line 19). -/
def DEFAULT_HOST : String := "192.168.1.100"

/-- Default bind port (`DEFAULT_PORT`, line 20). -/
def DEFAULT_PORT : Int := 8080

/-- `SimulationConfig` pydantic model (lines 30-37) with its field
defaults.  Pydantic validates only the field types and the enum
membership of `sensor_type`; no range constraint is declared on any
field. -/
structure SimulationConfig where
  sensor_type : SensorType := .temperature
  min_value : ℚ := 0
  max_value : ℚ := 100
  noise_factor : ℚ := 1/10
  sample_rate_hz : ℚ := 1
  host : String := DEFAULT_HOST
  port : Int := DEFAULT_PORT
deriving DecidableEq, Repr

/-- The `units` dict literal inside `get_unit_for_sensor` (lines 67-74). -/
def units : List (SensorType × String) :=
  [(.temperature, "C"),
   (.pressure, "kPa"),
   (.force, "N"),
   (.acceleration, "m/s²"),
   (.position, "mm"),
   (.light, "lux")]

/-- `get_unit_for_sensor` (lines 65-75): `units.get(sensor_type, "")`,
a lookup with the empty string as the defensive default. -/
def get_unit_for_sensor (sensor_type : SensorType) : String :=
  ((units.lookup sensor_type).getD "")

/-- Python's `round(x, ndigits)` rounds to the nearest multiple of
`10^-ndigits`, breaking ties toward the even multiple ("banker's
rounding").  `halfToEven y` is that integer rounding of `y`. -/
def halfToEven (y : ℚ) : Int :=
  if y - (Int.floor y : ℚ) < 1/2 then Int.floor y
  else if (1:ℚ)/2 < y - (Int.floor y : ℚ) then Int.floor y + 1
  else if Int.floor y % 2 = 0 then Int.floor y else Int.floor y + 1

/-- Python's `round(x, 3)` (used at line 60). -/
def round3 (x : ℚ) : ℚ := (halfToEven (1000 * x) : ℚ) / 1000

/-- Python's `round(x, 1)` (used at line 209). -/
def round1 (x : ℚ) : ℚ := (halfToEven (10 * x) : ℚ) / 10

/-- The dict returned by `generate_sensor_data` (lines 58-63). -/
structure Reading where
  type : SensorType
  value : ℚ
  timestamp : ℚ
  unit : String
deriving DecidableEq, Repr

/-- `generate_sensor_data` (lines 49-63).  The two `random.random()`
draws are the parameters `u1` (for `base_value`) and `u2` (for
`noise_value`), each in `[0, 1)`; `time.time()` is the parameter `now`. -/
def generate_sensor_data (sensor_type : SensorType)
    (min_val max_val noise : ℚ) (u1 u2 now : ℚ) : Reading :=
  let base_value := min_val + u1 * (max_val - min_val)
  let noise_value := (u2 * 2 - 1) * noise * (max_val - min_val)
  let value := base_value + noise_value
  { type := sensor_type
    value := round3 value
    timestamp := now
    unit := get_unit_for_sensor sensor_type }

/-- `SimulationStatus` pydantic model (lines 39-43). -/
structure SimulationStatus where
  running : Bool
  sensor_type : Option SensorType := none
  sample_rate_hz : Option ℚ := none
  uptime_seconds : Option ℚ := none
deriving DecidableEq, Repr

/-- The worker handle (`simulation_thread`): the thread object created by
`start_simulation` (lines 168-171).  Its `args` tuple captures the
`active_config` object by reference; `config_ref` is the heap index of
that captured object. -/
structure WorkerHandle where
  config_ref : Nat
deriving DecidableEq, Repr

/-- The module-global control state of `main.py`: `simulation_running`
(line 14), `simulation_thread` (line 15), `stop_event` (line 16),
`active_config` (line 46) and `start_time` (line 47).  Configuration
objects live in an append-only `heap` (Python objects addressed by
index); `active_ref` is the index the global `active_config` is bound
to.  `update_config` rebinds `active_ref` to a freshly allocated object
and never mutates an existing one, which is exactly how the Python
assignment `active_config = config` behaves. -/
structure ServerState where
  simulation_running : Bool
  stop_event : Bool
  heap : List SimulationConfig
  active_ref : Nat
  worker : Option WorkerHandle
  start_time : Option ℚ
deriving DecidableEq, Repr

/-- The process-start state: one default-constructed `SimulationConfig`
(line 46), not running, stop event clear, no thread, no start time. -/
def initialState : ServerState :=
  { simulation_running := false
    stop_event := false
    heap := [{}]
    active_ref := 0
    worker := none
    start_time := none }

/-- The configuration object the global `active_config` is bound to. -/
def activeConfig (s : ServerState) : SimulationConfig :=
  s.heap.getD s.active_ref {}

/-- Result of `POST /start` (lines 155-175). -/
inductive StartResult where
  | alreadyRunning
  | started (config : SimulationConfig)
deriving DecidableEq, Repr

/-- `start_simulation` (lines 155-175).  If already running it returns
at once (line 161) touching nothing.  Otherwise it clears the stop
event, sets `simulation_running := true` and spawns the worker thread,
handing it the `active_config` OBJECT (line 170) — the same heap cell,
no copy is made.  No socket operation happens here: the bind is
performed later, inside `simulation_worker`. -/
def start_simulation (s : ServerState) : StartResult × ServerState :=
  if s.simulation_running then (.alreadyRunning, s)
  else
    (.started (activeConfig s),
     { s with stop_event := false
              simulation_running := true
              worker := some { config_ref := s.active_ref } })

/-- What the environment decides about one `simulation_worker`
invocation: whether `sock.bind` (line 87) succeeds, and the value of
`time.time()` at worker entry (line 80). -/
structure WorkerEnv where
  bindOk : Bool
  now : ℚ
deriving DecidableEq, Repr

/-- The effect of `simulation_worker` (lines 77-140) on the control
state, together with whether the worker reached its accept loop.  The
worker first sets the global `start_time` (line 80), then tries to bind
inside its own `try` block (line 87).  A bind failure is caught by the
`except` at line 135: the worker prints the error and terminates; it
never touches `simulation_running`, so a bind failure leaves the
control state Running.  The accept/stream loop itself is network and
wall-clock I/O and is not modelled further; it also never writes any
control global. -/
def simulation_worker_entry (env : WorkerEnv) (s : ServerState) :
    ServerState × Bool :=
  ({ s with start_time := some env.now }, env.bindOk)

/-- `start_simulation` followed by the spawned worker's entry effect:
the observable outcome of one `POST /start` once the worker thread has
run up to (and including) its bind attempt. -/
def start_then_worker (env : WorkerEnv) (s : ServerState) :
    StartResult × ServerState :=
  match start_simulation s with
  | (.alreadyRunning, s1) => (.alreadyRunning, s1)
  | (.started c, s1) => (.started c, (simulation_worker_entry env s1).1)

/-- Result of `POST /stop` (lines 177-193). -/
inductive StopResult where
  | noSimulation
  | stopped
deriving DecidableEq, Repr

/-- The timeout passed to `simulation_thread.join` (line 190). -/
def joinTimeoutSeconds : ℚ := 5

/-- `threading.Thread.join(timeout)`: returns control after the worker
has exited or after `timeout` seconds, whichever is first.
`workerExitDelay` is how long the worker still needs to terminate; the
result says whether the join observed termination within the bound. -/
def join_with_timeout (timeout workerExitDelay : ℚ) : Bool :=
  workerExitDelay ≤ timeout

/-- `stop_simulation` (lines 177-193).  Idle: early return (line 183),
nothing touched.  Running: set the stop event (line 186), join the
thread with a 5-second timeout (line 190) — the join's outcome is
ignored by the code — then set `simulation_running := false` (line 192)
unconditionally.  `simulation_thread` is left in place. -/
def stop_simulation (workerExitDelay : ℚ) (s : ServerState) :
    StopResult × ServerState :=
  if !s.simulation_running then (.noSimulation, s)
  else
    let _joined := join_with_timeout joinTimeoutSeconds workerExitDelay
    (.stopped,
     { s with stop_event := true
              simulation_running := false })

/-- `get_status` (lines 195-210): read-only. -/
def get_status (now : ℚ) (s : ServerState) : SimulationStatus :=
  if !s.simulation_running then { running := false }
  else
    let uptime := match s.start_time with
      | some t0 => now - t0
      | none => 0
    { running := true
      sensor_type := some (activeConfig s).sensor_type
      sample_rate_hz := some (activeConfig s).sample_rate_hz
      uptime_seconds := some (round1 uptime) }

/-- `get_config` (lines 212-216): read-only, returns `active_config`. -/
def get_config (s : ServerState) : SimulationConfig :=
  activeConfig s

/-- Result of `POST /config` (lines 218-231): either the HTTP 400
rejection raised while running (lines 224-228), or success with the
accepted configuration echoed back (line 231). -/
inductive UpdateResult where
  | configLocked
  | updated (config : SimulationConfig)
deriving DecidableEq, Repr

/-- `update_config` (lines 218-231).  While running it raises HTTP 400
before touching anything.  Otherwise `active_config = config` rebinds
the global to the request's freshly parsed object — modelled as
appending a new heap cell and pointing `active_ref` at it.  No field of
`config` is inspected: there is no range validation anywhere in the
handler (pydantic checks only types and enum membership). -/
def update_config (config : SimulationConfig) (s : ServerState) :
    UpdateResult × ServerState :=
  if s.simulation_running then (.configLocked, s)
  else
    (.updated config,
     { s with heap := s.heap ++ [config]
              active_ref := s.heap.length })

/-- `generate_sample` (lines 233-245): delegates to
`generate_sensor_data` on the current `active_config`, regardless of
run state; no state change. -/
def generate_sample (s : ServerState) (u1 u2 now : ℚ) : Reading :=
  generate_sensor_data (activeConfig s).sensor_type
    (activeConfig s).min_value (activeConfig s).max_value
    (activeConfig s).noise_factor u1 u2 now

/-- One control-surface call, for quantifying over "every control call":
the five HTTP handlers that can run while a worker is alive.
`generate_sample` reads state but never writes it, so `applyOp` folds
it into the read-only cases. -/
inductive ControlOp where
  | startOp
  | stopOp (workerExitDelay : ℚ)
  | statusOp (now : ℚ)
  | getConfigOp
  | updateConfigOp (config : SimulationConfig)
  | generateSampleOp (u1 u2 now : ℚ)
deriving DecidableEq, Repr

/-- The state transition each control call performs (read-only handlers
leave the state unchanged). -/
def applyOp : ControlOp → ServerState → ServerState
  | .startOp, s => (start_simulation s).2
  | .stopOp d, s => (stop_simulation d s).2
  | .statusOp _, s => s
  | .getConfigOp, s => s
  | .updateConfigOp c, s => (update_config c s).2
  | .generateSampleOp _ _ _, s => s

/-- The configuration object the running worker reads its parameters
from (lines 102-106 read `config.sensor_type`, `config.min_value`, ...
through the reference captured at spawn time). -/
def workerConfig (s : ServerState) : Option SimulationConfig :=
  s.worker.map (fun w => s.heap.getD w.config_ref {})

/-- A state with a run in progress: the process-start state after one
successful `POST /start`.  Used as the concrete Running state in
witnesses. -/
def runningState : ServerState := (start_simulation initialState).2

/-- The integer produced by round-half-to-even is within 1/2 of its
argument. -/
theorem halfToEven_close (y : ℚ) : |(halfToEven y : ℚ) - y| ≤ 1/2 := by
  have h0 : (Int.floor y : ℚ) ≤ y := Int.floor_le y
  have h1 : y < (Int.floor y : ℚ) + 1 := Int.lt_floor_add_one y
  unfold halfToEven
  split_ifs with hc1 hc2 hc3
  · rw [abs_le]
    constructor <;> linarith
  · rw [abs_le]
    push_cast
    constructor <;> linarith
  · rw [abs_le]
    constructor <;> linarith
  · rw [abs_le]
    push_cast
    constructor <;> linarith

/-- Rounding to 3 decimal places moves a rational by at most 1/2000. -/
theorem round3_close (x : ℚ) : |round3 x - x| ≤ 1/2000 := by
  have h := halfToEven_close (1000 * x)
  rw [abs_le] at h ⊢
  unfold round3
  constructor <;> · obtain ⟨h1, h2⟩ := h; linarith

/-- C1 counterexample: while Idle, a configuration violating the
documented invariant `minValue ≤ maxValue` (here min = 1 > 0 = max) is
NOT rejected: `update_config` succeeds and the invalid configuration
becomes the active one. -/
theorem C1_update_config_no_validation_cex :
    ({ min_value := 1, max_value := 0 : SimulationConfig }).max_value <
      ({ min_value := 1, max_value := 0 : SimulationConfig }).min_value ∧
    initialState.simulation_running = false ∧
    (update_config { min_value := 1, max_value := 0 } initialState).1 =
      .updated { min_value := 1, max_value := 0 } ∧
    activeConfig (update_config { min_value := 1, max_value := 0 } initialState).2 =
      { min_value := 1, max_value := 0 } := by
  refine ⟨by norm_num, rfl, rfl, rfl⟩

/-- C1 (amended): `update_config` while Idle accepts EVERY submitted
configuration — the handler checks no invariant.  The update is still
wholesale (the whole configuration object is replaced at once, and a
rejected-while-running update changes nothing), but a configuration
with min > max, negative noise, non-positive rate or an out-of-range
port is accepted just like a valid one. -/
theorem C1_update_config_idle_accepts_any (s : ServerState)
    (cfg : SimulationConfig) (h : s.simulation_running = false) :
    (update_config cfg s).1 = .updated cfg ∧
    activeConfig (update_config cfg s).2 = cfg := by
  constructor
  · simp [update_config, h]
  · simp [update_config, h, activeConfig]

/-- C1 witness: the default state is Idle and accepts the (invalid)
configuration with min = 1 > 0 = max. -/
theorem C1_update_config_idle_accepts_any_witness :
    initialState.simulation_running = false ∧
    ((update_config { min_value := 1, max_value := 0 } initialState).1 =
        .updated { min_value := 1, max_value := 0 } ∧
      activeConfig (update_config { min_value := 1, max_value := 0 } initialState).2 =
        { min_value := 1, max_value := 0 }) :=
  ⟨rfl, C1_update_config_idle_accepts_any initialState
    { min_value := 1, max_value := 0 } rfl⟩

/-- C2 counterexample: starting from Idle in an environment where the
bind will FAIL, `start()` still returns the success result (there is no
`BindFailure` result at all) and the state after the worker's failed
bind attempt is Running, not Idle. -/
theorem C2_start_bind_failure_cex :
    (start_then_worker { bindOk := false, now := 0 } initialState).1 =
      .started (activeConfig initialState) ∧
    (start_then_worker { bindOk := false, now := 0 } initialState).2.simulation_running =
      true := by
  refine ⟨rfl, rfl⟩

/-- C2 (amended): the listening endpoint is bound asynchronously inside
the worker thread, not inside `start()`.  From Idle, `start()` sets
RunState = Running, spawns the worker and returns the success result
before any bind is attempted, and it does so whether or not the bind
will succeed; a bind failure merely terminates the worker, leaving
RunState = Running until a later `stop()`. -/
theorem C2_start_idle_runs_regardless_of_bind (s : ServerState)
    (env : WorkerEnv) (h : s.simulation_running = false) :
    (start_then_worker env s).1 = .started (activeConfig s) ∧
    (start_then_worker env s).2.simulation_running = true ∧
    (start_then_worker env s).2.worker = some { config_ref := s.active_ref } := by
  simp [start_then_worker, start_simulation, simulation_worker_entry, h]

/-- C2 witness: from the initial state with a failing bind environment,
start succeeds and the system ends up Running with a worker spawned. -/
theorem C2_start_idle_runs_regardless_of_bind_witness :
    initialState.simulation_running = false ∧
    ((start_then_worker { bindOk := false, now := 3 } initialState).1 =
        .started (activeConfig initialState) ∧
      (start_then_worker { bindOk := false, now := 3 } initialState).2.simulation_running =
        true ∧
      (start_then_worker { bindOk := false, now := 3 } initialState).2.worker =
        some { config_ref := initialState.active_ref }) :=
  ⟨rfl, C2_start_idle_runs_regardless_of_bind initialState
    { bindOk := false, now := 3 } rfl⟩

/-- C3 counterexample: `start()` hands the worker the stored
configuration object ITSELF, not a distinct copy: the worker's captured
reference is the very heap cell `active_config` is bound to, and no new
configuration object is allocated by `start()`. -/
theorem C3_snapshot_is_alias_cex :
    (start_simulation initialState).2.worker =
      some { config_ref := (start_simulation initialState).2.active_ref } ∧
    (start_simulation initialState).2.heap = initialState.heap := by
  refine ⟨rfl, rfl⟩

/-- C3 (amended): `start()` passes the worker a reference to the stored
configuration object rather than a copy; the configuration the worker
reads is nevertheless never modified by any control call made during
the run, because `update_config` is rejected while Running and every
other handler leaves the heap untouched (an accepted update while Idle
binds a fresh object instead of mutating the old one). -/
theorem C3_worker_config_stable_during_run (s : ServerState)
    (op : ControlOp) (h : s.simulation_running = true) :
    workerConfig (applyOp op s) = workerConfig s := by
  cases op <;>
    simp [applyOp, start_simulation, stop_simulation, update_config,
      workerConfig, h]

/-- C3 witness: in the concrete running state, an attempted
configuration update leaves the worker's configuration untouched. -/
theorem C3_worker_config_stable_during_run_witness :
    runningState.simulation_running = true ∧
    workerConfig (applyOp (.updateConfigOp { min_value := 5 }) runningState) =
      workerConfig runningState :=
  ⟨rfl, C3_worker_config_stable_during_run runningState
    (.updateConfigOp { min_value := 5 }) rfl⟩

/-- C4: `stop()` while Idle is a no-op returning success; `stop()`
while Running raises the cancellation signal and — whatever the
worker's exit delay, timely or past the bound — sets RunState back to
Idle before returning; the join bound it waits with is 5 seconds. -/
theorem C4_stop_simulation_spec (s : ServerState) (d : ℚ) :
    (s.simulation_running = false → stop_simulation d s = (.noSimulation, s)) ∧
    (s.simulation_running = true →
      (stop_simulation d s).1 = .stopped ∧
      (stop_simulation d s).2.stop_event = true ∧
      (stop_simulation d s).2.simulation_running = false) ∧
    joinTimeoutSeconds = 5 := by
  refine ⟨fun h => ?_, fun h => ?_, rfl⟩
  · simp [stop_simulation, h]
  · refine ⟨?_, ?_, ?_⟩ <;> simp [stop_simulation, h]

/-- C4 witness: stopping the Idle initial state is a no-op success, and
stopping the concrete running state with a worker exit delay of 10
seconds (past the 5-second bound) still returns to Idle with the
cancellation signal raised. -/
theorem C4_stop_simulation_spec_witness :
    initialState.simulation_running = false ∧
    stop_simulation 10 initialState = (.noSimulation, initialState) ∧
    runningState.simulation_running = true ∧
    (stop_simulation 10 runningState).1 = .stopped ∧
    (stop_simulation 10 runningState).2.stop_event = true ∧
    (stop_simulation 10 runningState).2.simulation_running = false :=
  ⟨rfl, (C4_stop_simulation_spec initialState 10).1 rfl, rfl,
    ((C4_stop_simulation_spec runningState 10).2.1 rfl).1,
    ((C4_stop_simulation_spec runningState 10).2.1 rfl).2.1,
    ((C4_stop_simulation_spec runningState 10).2.1 rfl).2.2⟩

/-- C5: `update_config` while Running fails with the locked-config
error and leaves the whole state — in particular the active
configuration — exactly as it was. -/
theorem C5_update_config_locked_while_running (s : ServerState)
    (cfg : SimulationConfig) (h : s.simulation_running = true) :
    update_config cfg s = (.configLocked, s) ∧
    activeConfig (update_config cfg s).2 = activeConfig s := by
  constructor
  · simp [update_config, h]
  · simp [update_config, h]

/-- C5 witness: in the concrete running state, an update attempt is
rejected and the active configuration is unchanged. -/
theorem C5_update_config_locked_while_running_witness :
    runningState.simulation_running = true ∧
    (update_config { min_value := 42 } runningState = (.configLocked, runningState) ∧
      activeConfig (update_config { min_value := 42 } runningState).2 =
        activeConfig runningState) :=
  ⟨rfl, C5_update_config_locked_while_running runningState { min_value := 42 } rfl⟩

/-- C7: `start()` while Running returns the already-running result and
the state is returned completely unchanged — same worker handle, same
stop event, same heap and active configuration, so no second worker is
spawned and nothing is rebound. -/
theorem C7_start_idempotent_while_running (s : ServerState)
    (h : s.simulation_running = true) :
    start_simulation s = (.alreadyRunning, s) := by
  simp [start_simulation, h]

/-- C7 witness: a second `start()` on the concrete running state
returns the already-running result with the state untouched. -/
theorem C7_start_idempotent_while_running_witness :
    runningState.simulation_running = true ∧
    start_simulation runningState = (.alreadyRunning, runningState) :=
  ⟨rfl, C7_start_idempotent_while_running runningState rfl⟩

/-- The generated value, written out: rounding applied to
base plus scaled noise. -/
theorem generate_value_eq (t : SensorType) (mn mx nf u1 u2 now : ℚ) :
    (generate_sensor_data t mn mx nf u1 u2 now).value =
      round3 (mn + u1 * (mx - mn) + (u2 * 2 - 1) * nf * (mx - mn)) := rfl

/-- C8 counterexample: the valid configuration min = max = 1/10000 with
noiseFactor = 0 and draws u1 = u2 = 0 produces value = round3(1/10000)
= 0, strictly below the claimed lower bound min − noiseFactor·(max −
min) = 1/10000. -/
theorem C8_value_outside_claimed_bounds_cex :
    (1/10000 : ℚ) ≤ 1/10000 ∧ (0:ℚ) ≤ 0 ∧
    (generate_sensor_data .temperature (1/10000) (1/10000) 0 0 0 0).value <
      1/10000 - 0 * ((1/10000 : ℚ) - 1/10000) := by
  refine ⟨le_refl _, le_refl _, ?_⟩
  rw [generate_value_eq]
  norm_num [round3, halfToEven]

/-- C8 (amended): for every valid configuration (min ≤ max, noiseFactor
≥ 0) and every pair of draws in [0, 1], the produced value lies within
the noise-extended range widened by the 3-decimal rounding error:
[min − noiseFactor·(max − min) − 1/2000,
 max + noiseFactor·(max − min) + 1/2000]. -/
theorem C8_value_in_noise_bounds (t : SensorType) (mn mx nf u1 u2 now : ℚ)
    (hmn : mn ≤ mx) (hnf : 0 ≤ nf) (hu1 : 0 ≤ u1) (hu1' : u1 ≤ 1)
    (hu2 : 0 ≤ u2) (hu2' : u2 ≤ 1) :
    mn - nf * (mx - mn) - 1/2000 ≤
      (generate_sensor_data t mn mx nf u1 u2 now).value ∧
    (generate_sensor_data t mn mx nf u1 u2 now).value ≤
      mx + nf * (mx - mn) + 1/2000 := by
  rw [generate_value_eq]
  have hd : 0 ≤ mx - mn := by linarith
  have k1 : 0 ≤ u1 * (mx - mn) := mul_nonneg hu1 hd
  have k2 : u1 * (mx - mn) ≤ mx - mn := by nlinarith
  have k3 : 0 ≤ u2 * (nf * (mx - mn)) := mul_nonneg hu2 (mul_nonneg hnf hd)
  have k4 : u2 * (nf * (mx - mn)) ≤ nf * (mx - mn) := by
    nlinarith [mul_nonneg (by linarith : (0:ℚ) ≤ 1 - u2) (mul_nonneg hnf hd)]
  have hr := round3_close (mn + u1 * (mx - mn) + (u2 * 2 - 1) * nf * (mx - mn))
  rw [abs_le] at hr
  constructor <;> nlinarith [hr.1, hr.2]

/-- C8 witness: a concrete valid configuration and draw pair satisfy
all hypotheses and the widened bound. -/
theorem C8_value_in_noise_bounds_witness :
    (0:ℚ) ≤ 10 ∧ (0:ℚ) ≤ 1/10 ∧ (0:ℚ) ≤ 1/3 ∧ (1/3:ℚ) ≤ 1 ∧
    (0:ℚ) ≤ 2/3 ∧ (2/3:ℚ) ≤ 1 ∧
    ((0:ℚ) - 1/10 * (10 - 0) - 1/2000 ≤
        (generate_sensor_data .temperature 0 10 (1/10) (1/3) (2/3) 0).value ∧
      (generate_sensor_data .temperature 0 10 (1/10) (1/3) (2/3) 0).value ≤
        10 + 1/10 * (10 - 0) + 1/2000) :=
  ⟨by norm_num, by norm_num, by norm_num, by norm_num, by norm_num, by norm_num,
    C8_value_in_noise_bounds .temperature 0 10 (1/10) (1/3) (2/3) 0
      (by norm_num) (by norm_num) (by norm_num) (by norm_num)
      (by norm_num) (by norm_num)⟩

/-- C9 counterexample: with min = max = 3/10000 and noiseFactor = 0 the
produced value is round3(3/10000) = 0, which is not equal to min and
lies outside [min, max]. -/
theorem C9_zero_noise_value_not_exact_cex :
    (generate_sensor_data .pressure (3/10000) (3/10000) 0 0 0 0).value = 0 ∧
    (0:ℚ) < 3/10000 := by
  constructor
  · rw [generate_value_eq]
    norm_num [round3, halfToEven]
  · norm_num

/-- C9 (amended): with noiseFactor = 0 every produced value lies in
[min − 1/2000, max + 1/2000] (the claimed [min, max] widened by the
3-decimal rounding step), and with min = max every produced value
equals round3(min) — min rounded to 3 decimal places, not min itself. -/
theorem C9_zero_noise_and_constant_range (t : SensorType)
    (mn mx nf u1 u2 now : ℚ) (hmn : mn ≤ mx) (hu1 : 0 ≤ u1) (hu1' : u1 ≤ 1) :
    (nf = 0 →
      mn - 1/2000 ≤ (generate_sensor_data t mn mx nf u1 u2 now).value ∧
      (generate_sensor_data t mn mx nf u1 u2 now).value ≤ mx + 1/2000) ∧
    (mn = mx →
      (generate_sensor_data t mn mx nf u1 u2 now).value = round3 mn) := by
  constructor
  · intro hnf
    rw [generate_value_eq, hnf]
    have hd : 0 ≤ mx - mn := by linarith
    have k1 : 0 ≤ u1 * (mx - mn) := mul_nonneg hu1 hd
    have k2 : u1 * (mx - mn) ≤ mx - mn := by nlinarith
    have hr := round3_close (mn + u1 * (mx - mn) + (u2 * 2 - 1) * 0 * (mx - mn))
    rw [abs_le] at hr
    constructor <;> nlinarith [hr.1, hr.2]
  · intro heq
    rw [generate_value_eq, ← heq]
    have : mn + u1 * (mn - mn) + (u2 * 2 - 1) * nf * (mn - mn) = mn := by ring
    rw [this]

/-- C9 witness: min = max = 2 with zero noise satisfies the hypotheses;
both branches apply, and the value both lies in the widened band and
equals round3(2). -/
theorem C9_zero_noise_and_constant_range_witness :
    (2:ℚ) ≤ 2 ∧ (0:ℚ) ≤ 1/2 ∧ (1/2:ℚ) ≤ 1 ∧
    (((0:ℚ) = 0 →
        (2:ℚ) - 1/2000 ≤ (generate_sensor_data .light 2 2 0 (1/2) (1/4) 0).value ∧
        (generate_sensor_data .light 2 2 0 (1/2) (1/4) 0).value ≤ 2 + 1/2000) ∧
      ((2:ℚ) = 2 →
        (generate_sensor_data .light 2 2 0 (1/2) (1/4) 0).value = round3 2)) :=
  ⟨by norm_num, by norm_num, by norm_num,
    C9_zero_noise_and_constant_range .light 2 2 0 (1/2) (1/4) 0
      (by norm_num) (by norm_num) (by norm_num)⟩

/-- C10: the generator and the generate-sample handler are total — they
are plain functions defined for every configuration, valid or not
(min > max and negative noise included, since nothing below constrains
the parameters) — the unit field is exactly the fixed table entry for
the sensor kind, the defensive empty-string default of the unit lookup
is unreachable (the lookup succeeds for every kind of the closed set),
and `generate_sample` is precisely the generator applied to the current
active configuration. -/
theorem C10_generator_total_and_units (t : SensorType)
    (mn mx nf u1 u2 now : ℚ) (s : ServerState) :
    (generate_sensor_data t mn mx nf u1 u2 now).unit =
      (match t with
       | .temperature => "C"
       | .pressure => "kPa"
       | .force => "N"
       | .acceleration => "m/s²"
       | .position => "mm"
       | .light => "lux") ∧
    (units.lookup t).isSome = true ∧
    generate_sample s u1 u2 now =
      generate_sensor_data (activeConfig s).sensor_type
        (activeConfig s).min_value (activeConfig s).max_value
        (activeConfig s).noise_factor u1 u2 now := by
  refine ⟨?_, ?_, rfl⟩
  · cases t <;> rfl
  · cases t <;> rfl

end HilSim
